import Mathlib

/-!
Shallow embedding of the lunch-decision service in `src/main.py`.

The persistent store is four SQL tables (`users`, `restaurants`, `sessions`,
`user_session_restaurants`); we model each as a list of rows, together with
the auto-increment counters the inserts rely on.  `database.fetch_one` of a
`select ... where p` is `List.find? p` (first matching row),
`database.fetch_all` is `List.filter p`, and an SQL `update ... where id = k`
maps the update over the rows with matching id.  An uncaught Python
exception (for instance `random.choice` on an empty sequence) is modelled as
an `internalError`, a raised `HTTPException(404, d)` as `notFound d`.
The nondeterminism of `random.choice(seq)` is modelled by an extra `draw`
argument: the chosen element is `seq[draw % len(seq)]`, so every element is
selected by some value of `draw`.
-/

/-- A row of the `users` table. -/
structure UserRow where
  id : Nat
  name : String
deriving DecidableEq

/-- A row of the `restaurants` table (the `session_id` column of the table
declaration is never written nor read by any handler, so it is omitted). -/
structure RestaurantRow where
  id : Nat
  name : String
deriving DecidableEq

/-- A row of the `sessions` table. -/
structure SessionRow where
  id : Nat
  name : String
  progress : Int
  expected_number_of_participants : Int
  owner_id : Nat
  status : String
  result : Option String
deriving DecidableEq

/-- A row of the `user_session_restaurants` table (one submission fact). -/
structure SubmissionRow where
  id : Nat
  user_id : Nat
  session_id : Nat
  restaurant_id : Nat
deriving DecidableEq

/-- The persistent store: the four tables plus the auto-increment counters
used when inserting into `restaurants` and `user_session_restaurants`. -/
structure DB where
  users : List UserRow
  restaurants : List RestaurantRow
  sessions : List SessionRow
  user_session_restaurants : List SubmissionRow
  next_restaurant_id : Nat
  next_submission_id : Nat
deriving DecidableEq

/-- How a request can fail: `notFound d` is `HTTPException(status_code=404,
detail=d)`; `internalError d` is an uncaught Python exception (surfaced by
FastAPI as a 500 response). -/
inductive ApiError where
  | notFound (detail : String)
  | internalError (detail : String)
deriving DecidableEq

/-- Model of `sessions_table.update().where(id == session_id).values(...)`:
apply `f`
to every session row whose id matches. -/
def updateSessionWhere (l : List SessionRow) (session_id : Nat)
    (f : SessionRow → SessionRow) : List SessionRow :=
  l.map (fun s => if s.id == session_id then f s else s)

/-- Python `round` applied to the exact rational `num / den` (`den > 0`):
round half to even.  (`round(len(submissions) * 100 / participants)` in the
source; the float quotient of such small integers rounds exactly as the
rational does.) -/
def pyRound (num den : Nat) : Nat :=
  let q := num / den
  let r := num % den
  if 2 * r < den then q
  else if den < 2 * r then q + 1
  else if q % 2 == 0 then q else q + 1

/-- The progress value computed in `submit_restaurant`: `participants` is
the expected count read from the session at the start of the request, `n`
the total number of submissions for the session after the insert. -/
def progressValue (participants : Int) (n : Nat) : Int :=
  if 0 < participants then (pyRound (n * 100) participants.toNat : Int)
  else 0

/-- Handler of `PUT /session/{session_id}/end` (`end_session` in `src/main.py`).
Returns the response (the selected restaurant name on success) together with
the store as it stands when the handler returns or raises. -/
def end_session (db : DB) (session_id : Nat) (draw : Nat) :
    Except ApiError String × DB :=
  match db.sessions.find? (fun s => s.id == session_id) with
  | none => (Except.error (ApiError.notFound "Session not found"), db)
  | some _ =>
    -- update the session status to closed
    let db1 : DB := { db with
      sessions := updateSessionWhere db.sessions session_id
        (fun s => { s with status := "closed" }) }
    -- randomly select a restaurant from the submissions
    let submissions := db1.user_session_restaurants.filter
      (fun u => u.session_id == session_id)
    match submissions with
    | [] =>
      -- random.choice([]) raises IndexError; FastAPI answers 500
      (Except.error (ApiError.internalError
        "IndexError: cannot choose from an empty sequence"), db1)
    | x :: xs =>
      let random_result := (x :: xs).getD (draw % (x :: xs).length) x
      -- get the restaurant name from the restaurant_id
      match db1.restaurants.find? (fun r => r.id == random_result.restaurant_id) with
      | none =>
        -- restaurant_selected is None; None["name"] raises TypeError
        (Except.error (ApiError.internalError
          "TypeError: NoneType object is not subscriptable"), db1)
      | some restaurant_selected =>
        -- update the sessions table with the result
        let db2 : DB := { db1 with
          sessions := updateSessionWhere db1.sessions session_id
            (fun s => { s with result := some restaurant_selected.name }) }
        (Except.ok restaurant_selected.name, db2)

/-- Handler of `POST /submit-restaurant/` (`submit_restaurant` in `src/main.py`). -/
def submit_restaurant (db : DB) (session_id : Nat)
    (restaurant_name user_name : String) : Except ApiError String × DB :=
  -- first, validate the session ID
  match db.sessions.find? (fun s => s.id == session_id) with
  | none => (Except.error (ApiError.notFound "Session not found"), db)
  | some session =>
    -- next, get the user ID from the username
    match db.users.find? (fun u => u.name == user_name) with
    | none => (Except.error (ApiError.notFound "User not found"), db)
    | some user =>
      -- check if the restaurant already exists, and if not, create it
      let restPair : Nat × DB :=
        match db.restaurants.find? (fun r => r.name == restaurant_name) with
        | some restaurant => (restaurant.id, db)
        | none =>
          (db.next_restaurant_id,
           { db with
             restaurants := db.restaurants ++
               [{ id := db.next_restaurant_id, name := restaurant_name }],
             next_restaurant_id := db.next_restaurant_id + 1 })
      let restaurant_id := restPair.1
      let db1 := restPair.2
      -- add the restaurant submission to the database
      let db2 : DB := { db1 with
        user_session_restaurants := db1.user_session_restaurants ++
          [{ id := db1.next_submission_id, user_id := user.id,
             session_id := session_id, restaurant_id := restaurant_id }],
        next_submission_id := db1.next_submission_id + 1 }
      -- select the total number of submissions for the session
      let submissions := db2.user_session_restaurants.filter
        (fun u => u.session_id == session_id)
      -- update the session progress
      let progress_value : Int :=
        progressValue session.expected_number_of_participants
          submissions.length
      let db3 : DB := { db2 with
        sessions := updateSessionWhere db2.sessions session_id
          (fun s => { s with progress := progress_value }) }
      (Except.ok "Restaurant submitted successfully", db3)

/-- Response body of `GET /check-submission/{session_id}/{username}`:
`{"submitted": b}` with an optional `"restaurantName"` field. -/
structure CheckSubmissionResponse where
  submitted : Bool
  restaurantName : Option String
deriving DecidableEq

/-- Handler of `GET /check-submission/{session_id}/{username}`
(`check_submission` in
`src/main.py`).  Reads only, so no store is returned. -/
def check_submission (db : DB) (session_id : Nat) (username : String) :
    Except ApiError CheckSubmissionResponse :=
  -- first, find the user ID based on the username
  match db.users.find? (fun u => u.name == username) with
  | none => Except.error (ApiError.notFound "User not found")
  | some user =>
    match db.user_session_restaurants.find?
        (fun u => u.session_id == session_id && u.user_id == user.id) with
    | none => Except.ok { submitted := false, restaurantName := none }
    | some submission =>
      match db.restaurants.find? (fun r => r.id == submission.restaurant_id) with
      | none => Except.error (ApiError.internalError
          "TypeError: NoneType object is not subscriptable")
      | some restaurant =>
        Except.ok { submitted := true, restaurantName := some restaurant.name }

deriving instance DecidableEq for Except

/-! ### Concrete store states used as test fixtures -/

/-- A participant row used by the concrete instances below. -/
def alice : UserRow := { id := 1, name := "alice" }

/-- An open session expecting two participants, no result yet. -/
def sessionOpen1 : SessionRow :=
  { id := 1, name := "Dinner", progress := 0,
    expected_number_of_participants := 2, owner_id := 1,
    status := "open", result := none }

/-- A store with one user, one open session and no submissions. -/
def dbOpenNoSubs : DB :=
  { users := [alice], restaurants := [], sessions := [sessionOpen1],
    user_session_restaurants := [], next_restaurant_id := 1,
    next_submission_id := 1 }

/-- A session already closed with result "A". -/
def sessionClosedA : SessionRow :=
  { id := 1, name := "Dinner", progress := 100,
    expected_number_of_participants := 2, owner_id := 1,
    status := "closed", result := some "A" }

/-- A store whose only session is closed with result "A", with two recorded
submissions referencing restaurants "A" and "B". -/
def dbClosedWithResult : DB :=
  { users := [alice, { id := 2, name := "bob" }],
    restaurants := [{ id := 1, name := "A" }, { id := 2, name := "B" }],
    sessions := [sessionClosedA],
    user_session_restaurants :=
      [{ id := 1, user_id := 1, session_id := 1, restaurant_id := 1 },
       { id := 2, user_id := 2, session_id := 1, restaurant_id := 2 }],
    next_restaurant_id := 3, next_submission_id := 3 }

/-- An open session expecting a single participant. -/
def sessionExpectOne : SessionRow :=
  { id := 1, name := "Lunch", progress := 0,
    expected_number_of_participants := 1, owner_id := 1,
    status := "open", result := none }

/-- A store with one user and one open session expecting one participant. -/
def dbExpectOne : DB :=
  { users := [alice], restaurants := [], sessions := [sessionExpectOne],
    user_session_restaurants := [], next_restaurant_id := 1,
    next_submission_id := 1 }

/-- A store holding a user but no session at all. -/
def dbUserOnly : DB :=
  { users := [alice], restaurants := [], sessions := [],
    user_session_restaurants := [], next_restaurant_id := 1,
    next_submission_id := 1 }

/-! ### Helper lemmas -/

/-- Looking a session up by id after an `update ... where id = session_id`
finds the same row as before, transformed when its id matches. -/
theorem find?_updateSessionWhere (l : List SessionRow) (session_id k : Nat)
    (f : SessionRow → SessionRow) :
    (updateSessionWhere l session_id f).find? (fun s => s.id == k) =
      (l.find? (fun s => (if s.id == session_id then f s else s).id == k)).map
        (fun s => if s.id == session_id then f s else s) := by
  unfold updateSessionWhere
  rw [List.find?_map]
  rfl

/-- If `f` preserves the id column, an update targeting `session_id` keeps
lookup by any key `k` aligned with lookup in the original table. -/
theorem find?_updateSessionWhere_of_id (l : List SessionRow) (session_id k : Nat)
    (f : SessionRow → SessionRow) (hid : ∀ s, (f s).id = s.id) :
    (updateSessionWhere l session_id f).find? (fun s => s.id == k) =
      (l.find? (fun s => s.id == k)).map
        (fun s => if s.id == session_id then f s else s) := by
  rw [find?_updateSessionWhere]
  have hp : (fun s => (if s.id == session_id then f s else s).id == k) =
      (fun s : SessionRow => s.id == k) := by
    funext s
    cases h : s.id == session_id <;> simp [h, hid]
  rw [hp]

/-! ### Claims about `end_session` -/

/-- Claim C7: closing a session id that does not resolve to an existing
session fails with NotFound and leaves the whole store unchanged. -/
theorem end_session_unknown_session_not_found (db : DB) (session_id draw : Nat)
    (h : db.sessions.find? (fun s => s.id == session_id) = none) :
    end_session db session_id draw =
      (Except.error (ApiError.notFound "Session not found"), db) := by
  unfold end_session
  rw [h]

/-- Witness for claim C7 at the concrete store with no sessions. -/
theorem end_session_unknown_session_not_found_witness :
    end_session dbUserOnly 1 0 =
      (Except.error (ApiError.notFound "Session not found"), dbUserOnly) :=
  end_session_unknown_session_not_found dbUserOnly 1 0 rfl

/-- Claim C1 (code behaviour at the failing input): closing the existing
session 1 of `dbOpenNoSubs`, which has zero submissions, does NOT succeed:
`random.choice` raises IndexError after the status update was persisted, so
the handler answers 500 while the claim asserts the close succeeds. -/
theorem end_session_empty_submissions_raises :
    (end_session dbOpenNoSubs 1 0).1 = Except.error (ApiError.internalError
      "IndexError: cannot choose from an empty sequence") ∧
    (end_session dbOpenNoSubs 1 0).2.sessions.find? (fun s => s.id == 1) =
      some { sessionOpen1 with status := "closed" } := by
  exact ⟨rfl, rfl⟩

/-- Claim C9: when close hits an existing session with zero submissions, the
operation fails (IndexError), yet the status was already persisted as
closed before the submission set was read, leaving a closed session with no
result. -/
theorem end_session_empty_status_persisted (db : DB) (sid draw : Nat)
    (s : SessionRow)
    (hfind : db.sessions.find? (fun t => t.id == sid) = some s)
    (hres : s.result = none)
    (hempty : db.user_session_restaurants.filter
      (fun u => u.session_id == sid) = []) :
    (end_session db sid draw).1 = Except.error (ApiError.internalError
        "IndexError: cannot choose from an empty sequence") ∧
    ∃ t, (end_session db sid draw).2.sessions.find? (fun x => x.id == sid) =
        some t ∧ t.status = "closed" ∧ t.result = none := by
  have heq : end_session db sid draw =
      (Except.error (ApiError.internalError
        "IndexError: cannot choose from an empty sequence"),
       { db with
         sessions :=
           updateSessionWhere db.sessions sid
             (fun u => { u with status := "closed" }) }) := by
    unfold end_session
    rw [hfind]
    dsimp only
    rw [hempty]
  rw [heq]
  refine ⟨rfl, ?_⟩
  have hs : (s.id == sid) = true := by simpa using List.find?_some hfind
  refine ⟨{ s with status := "closed" }, ?_, rfl, hres⟩
  dsimp only
  rw [find?_updateSessionWhere_of_id db.sessions sid sid
    (fun u => { u with status := "closed" }) (fun u => rfl), hfind]
  simp [hs]
  intro hcon
  exact absurd (by simpa using hs) hcon

/-- Witness for claim C9 at the concrete one-open-session store. -/
theorem end_session_empty_status_persisted_witness :
    (end_session dbOpenNoSubs 1 0).1 = Except.error (ApiError.internalError
        "IndexError: cannot choose from an empty sequence") ∧
    ∃ t, (end_session dbOpenNoSubs 1 0).2.sessions.find? (fun x => x.id == 1) =
        some t ∧ t.status = "closed" ∧ t.result = none :=
  end_session_empty_status_persisted dbOpenNoSubs 1 0 sessionOpen1 rfl rfl rfl

/-- Claim C2 (code behaviour at the failing input): session 1 of
`dbClosedWithResult` is already closed with result "A"; calling close again
with a draw that picks the second submission re-randomizes and overwrites the
stored result to "B", while the claim asserts the result is not changed. -/
theorem end_session_reclose_overwrites_result :
    sessionClosedA.result = some "A" ∧
    (end_session dbClosedWithResult 1 1).1 = Except.ok "B" ∧
    (end_session dbClosedWithResult 1 1).2.sessions.find? (fun s => s.id == 1) =
      some { sessionClosedA with result := some "B" } := by
  exact ⟨rfl, by decide, by decide⟩

/-- Claim C6: closing an existing session whose recorded submission set is
non-empty returns the name of a restaurant referenced by one of those
submissions, and persists status closed with that name as the result — for
every possible outcome of the random draw. -/
theorem end_session_result_from_submissions (db : DB) (sid draw : Nat)
    (s : SessionRow)
    (hfind : db.sessions.find? (fun t => t.id == sid) = some s)
    (hne : db.user_session_restaurants.filter
      (fun u => u.session_id == sid) ≠ [])
    (hwf : ∀ u ∈ db.user_session_restaurants, u.session_id = sid →
      ∃ r ∈ db.restaurants, r.id = u.restaurant_id) :
    ∃ rname,
      (end_session db sid draw).1 = Except.ok rname ∧
      (∃ t, (end_session db sid draw).2.sessions.find? (fun x => x.id == sid) =
          some t ∧ t.status = "closed" ∧ t.result = some rname) ∧
      ∃ u ∈ db.user_session_restaurants, u.session_id = sid ∧
        ∃ r ∈ db.restaurants, r.id = u.restaurant_id ∧ r.name = rname := by
  cases hfil : db.user_session_restaurants.filter
      (fun u => u.session_id == sid) with
  | nil => exact absurd hfil hne
  | cons x xs =>
    have hidx : draw % (x :: xs).length < (x :: xs).length :=
      Nat.mod_lt _ (by simp)
    have hmemfil : (x :: xs).getD (draw % (x :: xs).length) x ∈ x :: xs := by
      rw [List.getD_eq_getElem _ _ hidx]
      exact List.getElem_mem hidx
    have hmemfil2 : (x :: xs).getD (draw % (x :: xs).length) x ∈
        db.user_session_restaurants.filter (fun u => u.session_id == sid) := by
      rw [hfil]
      exact hmemfil
    have hmem : (x :: xs).getD (draw % (x :: xs).length) x ∈
        db.user_session_restaurants ∧
        (((x :: xs).getD (draw % (x :: xs).length) x).session_id == sid) = true :=
      List.mem_filter.mp hmemfil2
    have hsid : ((x :: xs).getD (draw % (x :: xs).length) x).session_id = sid := by
      simpa using hmem.2
    obtain ⟨r0, hr0mem, hr0id⟩ := hwf _ hmem.1 hsid
    have hfr : ∃ rsel, db.restaurants.find? (fun r =>
        r.id == ((x :: xs).getD (draw % (x :: xs).length) x).restaurant_id) =
        some rsel := by
      cases hcase : db.restaurants.find? (fun r =>
          r.id == ((x :: xs).getD (draw % (x :: xs).length) x).restaurant_id) with
      | some rsel => exact ⟨rsel, rfl⟩
      | none =>
        exfalso
        have hnever := List.find?_eq_none.mp hcase r0 hr0mem
        simp [hr0id] at hnever
    obtain ⟨rsel, hfindr⟩ := hfr
    have hselid : (rsel.id ==
        ((x :: xs).getD (draw % (x :: xs).length) x).restaurant_id) = true := by
      simpa using List.find?_some hfindr
    have hselmem : rsel ∈ db.restaurants := List.mem_of_find?_eq_some hfindr
    have heq : end_session db sid draw =
        (Except.ok rsel.name,
         { db with
           sessions :=
             updateSessionWhere
               (updateSessionWhere db.sessions sid
                 (fun u => { u with status := "closed" })) sid
               (fun u => { u with result := some rsel.name }) }) := by
      unfold end_session
      rw [hfind]
      dsimp only
      rw [hfil]
      dsimp only
      rw [hfindr]
    have hs : (s.id == sid) = true := by simpa using List.find?_some hfind
    refine ⟨rsel.name, ?_, ?_, ?_⟩
    · rw [heq]
    · rw [heq]
      dsimp only
      rw [find?_updateSessionWhere_of_id _ sid sid
        (fun u => { u with result := some rsel.name }) (fun u => rfl)]
      rw [find?_updateSessionWhere_of_id db.sessions sid sid
        (fun u => { u with status := "closed" }) (fun u => rfl)]
      rw [hfind]
      refine ⟨{ s with status := "closed", result := some rsel.name }, ?_, rfl, rfl⟩
      have hseq : s.id = sid := by simpa using hs
      simp [hseq]
    · exact ⟨(x :: xs).getD (draw % (x :: xs).length) x, hmem.1, hsid,
        rsel, hselmem, by simpa using hselid, rfl⟩

/-- Witness for claim C6 at the concrete two-submission store. -/
theorem end_session_result_from_submissions_witness :
    ∃ rname,
      (end_session dbClosedWithResult 1 0).1 = Except.ok rname ∧
      (∃ t, (end_session dbClosedWithResult 1 0).2.sessions.find?
          (fun x => x.id == 1) = some t ∧
          t.status = "closed" ∧ t.result = some rname) ∧
      ∃ u ∈ dbClosedWithResult.user_session_restaurants, u.session_id = 1 ∧
        ∃ r ∈ dbClosedWithResult.restaurants, r.id = u.restaurant_id ∧
          r.name = rname :=
  end_session_result_from_submissions dbClosedWithResult 1 0 sessionClosedA
    rfl (by decide) (by decide)

/-! ### Claims about `submit_restaurant` -/

/-- Claim C4 counterexample: in `dbOpenNoSubs` session 1 exists and no user
is named "bob", yet submitting as "bob" fails with NotFound and mutates
nothing — the participant is not created and no submission is recorded,
contrary to the claimed create-if-absent behaviour. -/
theorem submit_unknown_user_counterexample :
    dbOpenNoSubs.users.find? (fun u => u.name == "bob") = none ∧
    submit_restaurant dbOpenNoSubs 1 "Pizza" "bob" =
      (Except.error (ApiError.notFound "User not found"), dbOpenNoSubs) := by
  exact ⟨by decide, by decide⟩

/-- Claim C4 (amended): when the session exists but the participant name is
unknown, submit fails with NotFound ("User not found") and the store is
returned unchanged: no participant is created and nothing is recorded. -/
theorem submit_unknown_user_not_found (db : DB) (sid : Nat)
    (rname uname : String) (s : SessionRow)
    (hses : db.sessions.find? (fun t => t.id == sid) = some s)
    (husr : db.users.find? (fun u => u.name == uname) = none) :
    submit_restaurant db sid rname uname =
      (Except.error (ApiError.notFound "User not found"), db) := by
  unfold submit_restaurant
  rw [hses]
  dsimp only
  rw [husr]

/-- Witness for the amended claim C4 at a concrete store. -/
theorem submit_unknown_user_not_found_witness :
    submit_restaurant dbOpenNoSubs 1 "Sushi" "carol" =
      (Except.error (ApiError.notFound "User not found"), dbOpenNoSubs) :=
  submit_unknown_user_not_found dbOpenNoSubs 1 "Sushi" "carol" sessionOpen1
    rfl rfl

/-- Evaluation lemma for submit when the restaurant name already exists in
the catalog: the submission is appended with that restaurant id and the
session progress is recomputed from the new total. -/
theorem submit_restaurant_eq_of_catalog_hit (db : DB) (sid : Nat)
    (rname uname : String) (s : SessionRow) (user : UserRow)
    (restaurant : RestaurantRow)
    (hses : db.sessions.find? (fun t => t.id == sid) = some s)
    (husr : db.users.find? (fun u => u.name == uname) = some user)
    (hrest : db.restaurants.find? (fun r => r.name == rname) =
      some restaurant) :
    submit_restaurant db sid rname uname =
      (Except.ok "Restaurant submitted successfully",
       { db with
         user_session_restaurants := db.user_session_restaurants ++
           [{ id := db.next_submission_id, user_id := user.id,
              session_id := sid, restaurant_id := restaurant.id }],
         next_submission_id := db.next_submission_id + 1,
         sessions :=
           updateSessionWhere db.sessions sid (fun t =>
             { t with
               progress :=
                 progressValue s.expected_number_of_participants
                   ((db.user_session_restaurants ++
                     [({ id := db.next_submission_id, user_id := user.id,
                         session_id := sid,
                         restaurant_id := restaurant.id } :
                       SubmissionRow)]).filter
                     (fun u => u.session_id == sid)).length }) }) := by
  unfold submit_restaurant
  rw [hses]
  dsimp only
  rw [husr]
  dsimp only
  rw [hrest]

/-- Evaluation lemma for submit when the restaurant name is new: the
restaurant is created with the fresh catalog id, the submission references
it, and the session progress is recomputed from the new total. -/
theorem submit_restaurant_eq_of_catalog_miss (db : DB) (sid : Nat)
    (rname uname : String) (s : SessionRow) (user : UserRow)
    (hses : db.sessions.find? (fun t => t.id == sid) = some s)
    (husr : db.users.find? (fun u => u.name == uname) = some user)
    (hrest : db.restaurants.find? (fun r => r.name == rname) = none) :
    submit_restaurant db sid rname uname =
      (Except.ok "Restaurant submitted successfully",
       { db with
         restaurants := db.restaurants ++
           [{ id := db.next_restaurant_id, name := rname }],
         next_restaurant_id := db.next_restaurant_id + 1,
         user_session_restaurants := db.user_session_restaurants ++
           [{ id := db.next_submission_id, user_id := user.id,
              session_id := sid, restaurant_id := db.next_restaurant_id }],
         next_submission_id := db.next_submission_id + 1,
         sessions :=
           updateSessionWhere db.sessions sid (fun t =>
             { t with
               progress :=
                 progressValue s.expected_number_of_participants
                   ((db.user_session_restaurants ++
                     [({ id := db.next_submission_id, user_id := user.id,
                         session_id := sid,
                         restaurant_id := db.next_restaurant_id } :
                       SubmissionRow)]).filter
                     (fun u => u.session_id == sid)).length }) }) := by
  unfold submit_restaurant
  rw [hses]
  dsimp only
  rw [husr]
  dsimp only
  rw [hrest]

/-- Bound: `pyRound num den ≤ b` whenever `num ≤ b * den`. -/
theorem pyRound_le (num den b : Nat) (hden : 0 < den) (h : num ≤ b * den) :
    pyRound num den ≤ b := by
  have hq : num / den ≤ b := by
    have h2 : num / den ≤ b * den / den := Nat.div_le_div_right h
    rwa [Nat.mul_div_cancel b hden] at h2
  have hmod := Nat.div_add_mod num den
  have hqlt : 1 ≤ num % den → num / den < b := by
    intro hr1
    rcases Nat.lt_or_ge (num / den) b with hlt | hge
    · exact hlt
    · exfalso
      have hqb : num / den = b := Nat.le_antisymm hq hge
      rw [hqb] at hmod
      have hnum : num ≤ den * b := le_of_le_of_eq h (Nat.mul_comm b den)
      omega
  unfold pyRound
  dsimp only
  split
  · exact hq
  · rename_i h1
    split
    · rename_i h2
      have := hqlt (by omega)
      omega
    · rename_i h2
      have := hqlt (by omega)
      split <;> omega

/-- The progress value is never negative. -/
theorem progressValue_nonneg (E : Int) (n : Nat) : 0 ≤ progressValue E n := by
  unfold progressValue
  split
  · exact Int.natCast_nonneg _
  · exact le_refl 0

/-- The progress value is at most 100 as long as the submission count does
not exceed the expected participant count. -/
theorem progressValue_le_100 (E : Int) (n : Nat) (h : (n : Int) ≤ E) :
    progressValue E n ≤ 100 := by
  unfold progressValue
  split
  · rename_i hE
    have hEnat : (E.toNat : Int) = E := Int.toNat_of_nonneg (le_of_lt hE)
    have hn : n ≤ E.toNat := by
      have h2 : (n : Int) ≤ (E.toNat : Int) := by rw [hEnat]; exact h
      exact_mod_cast h2
    have hb : pyRound (n * 100) E.toNat ≤ 100 := by
      apply pyRound_le
      · omega
      · calc n * 100 ≤ E.toNat * 100 := Nat.mul_le_mul_right _ hn
          _ = 100 * E.toNat := Nat.mul_comm _ _
    exact_mod_cast hb
  · omega

/-- Specialisation of the update-lookup lemma to a progress write. -/
theorem find?_updateSessionWhere_progress (l : List SessionRow) (sid : Nat)
    (p : Int) :
    (updateSessionWhere l sid
        (fun t => { t with progress := p })).find? (fun x => x.id == sid) =
      (l.find? (fun x => x.id == sid)).map
        (fun t => if t.id == sid then { t with progress := p } else t) :=
  find?_updateSessionWhere_of_id l sid sid
    (fun t => { t with progress := p }) (fun _ => rfl)

/-- Shared evaluation of the progress write: an accepted submission answers
ok and persists, for the target session, exactly the progress value computed
from the expected count fetched at the start and the new total submission
count for the session. -/
theorem submit_progress_eq (db : DB) (sid : Nat) (rname uname : String)
    (s : SessionRow) (user : UserRow)
    (hses : db.sessions.find? (fun t => t.id == sid) = some s)
    (husr : db.users.find? (fun u => u.name == uname) = some user) :
    (submit_restaurant db sid rname uname).1 =
      Except.ok "Restaurant submitted successfully" ∧
    ∃ t, (submit_restaurant db sid rname uname).2.sessions.find?
        (fun x => x.id == sid) = some t ∧
      t.progress = progressValue s.expected_number_of_participants
        ((submit_restaurant db sid rname uname).2.user_session_restaurants.filter
          (fun u => u.session_id == sid)).length := by
  have hs : (s.id == sid) = true := by simpa using List.find?_some hses
  have hseq : s.id = sid := by simpa using hs
  cases hrest : db.restaurants.find? (fun r => r.name == rname) with
  | some restaurant =>
    rw [submit_restaurant_eq_of_catalog_hit db sid rname uname s user
      restaurant hses husr hrest]
    refine ⟨rfl, ?_⟩
    dsimp only
    rw [find?_updateSessionWhere_progress, hses]
    refine ⟨_, rfl, ?_⟩
    simp [hseq]
  | none =>
    rw [submit_restaurant_eq_of_catalog_miss db sid rname uname s user
      hses husr hrest]
    refine ⟨rfl, ?_⟩
    dsimp only
    rw [find?_updateSessionWhere_progress, hses]
    refine ⟨_, rfl, ?_⟩
    simp [hseq]

/-- Claim C5: after every accepted submission, the persisted progress of the
target session equals Python round(n * 100 / E) when the expected count E
fetched at the start of the request is positive — n being the total number
of submissions recorded for the session after the insert — and 0 when E is
0 (the code also yields 0 for negative E). -/
theorem submit_progress_formula (db : DB) (sid : Nat) (rname uname : String)
    (s : SessionRow) (user : UserRow)
    (hses : db.sessions.find? (fun t => t.id == sid) = some s)
    (husr : db.users.find? (fun u => u.name == uname) = some user) :
    (submit_restaurant db sid rname uname).1 =
      Except.ok "Restaurant submitted successfully" ∧
    ∃ t, (submit_restaurant db sid rname uname).2.sessions.find?
        (fun x => x.id == sid) = some t ∧
      t.progress =
        (if 0 < s.expected_number_of_participants then
          (pyRound
            (((submit_restaurant db sid rname uname).2.user_session_restaurants.filter
              (fun u => u.session_id == sid)).length * 100)
            s.expected_number_of_participants.toNat : Int)
        else 0) := by
  have h := submit_progress_eq db sid rname uname s user hses husr
  simpa [progressValue] using h

/-- Witness for claim C5: one accepted submission into the concrete session
expecting two participants. -/
theorem submit_progress_formula_witness :
    (submit_restaurant dbOpenNoSubs 1 "Pizza" "alice").1 =
      Except.ok "Restaurant submitted successfully" ∧
    ∃ t, (submit_restaurant dbOpenNoSubs 1 "Pizza" "alice").2.sessions.find?
        (fun x => x.id == 1) = some t ∧
      t.progress =
        (if 0 < sessionOpen1.expected_number_of_participants then
          (pyRound
            (((submit_restaurant dbOpenNoSubs 1 "Pizza" "alice").2.user_session_restaurants.filter
              (fun u => u.session_id == 1)).length * 100)
            sessionOpen1.expected_number_of_participants.toNat : Int)
        else 0) :=
  submit_progress_formula dbOpenNoSubs 1 "Pizza" "alice" sessionOpen1 alice
    rfl rfl

/-- Claim C3 counterexample: in the concrete store whose session expects one
participant, two submissions by the same participant leave the persisted
progress at 200, which is not between 0 and 100. -/
theorem progress_exceeds_100_counterexample :
    (((submit_restaurant (submit_restaurant dbExpectOne 1 "Pizza" "alice").2
        1 "Pizza" "alice").2.sessions.find? (fun x => x.id == 1)).map
      (fun t => t.progress)) = some 200 ∧
    ¬ ((200 : Int) ≤ 100) := by
  exact ⟨by decide, by decide⟩

/-- Claim C3 (amended): after an accepted submission the persisted progress
is a non-negative integer, and it is at most 100 provided the total number
of submissions recorded for the session does not exceed the expected
participant count; repeat submissions can exceed that count and push the
progress past 100. -/
theorem submit_progress_bounded_amended (db : DB) (sid : Nat)
    (rname uname : String) (s : SessionRow) (user : UserRow)
    (hses : db.sessions.find? (fun t => t.id == sid) = some s)
    (husr : db.users.find? (fun u => u.name == uname) = some user)
    (hcount : ((((submit_restaurant db sid rname uname).2.user_session_restaurants.filter
        (fun u => u.session_id == sid)).length : Int)) ≤
      s.expected_number_of_participants) :
    ∃ t, (submit_restaurant db sid rname uname).2.sessions.find?
        (fun x => x.id == sid) = some t ∧
      0 ≤ t.progress ∧ t.progress ≤ 100 := by
  obtain ⟨-, t, hfnd, hprog⟩ :=
    submit_progress_eq db sid rname uname s user hses husr
  exact ⟨t, hfnd, hprog ▸ progressValue_nonneg _ _,
    hprog ▸ progressValue_le_100 _ _ hcount⟩

/-- Witness for the amended claim C3: one submission into the session
expecting two participants stays within bounds. -/
theorem submit_progress_bounded_amended_witness :
    ∃ t, (submit_restaurant dbOpenNoSubs 1 "Pizza" "alice").2.sessions.find?
        (fun x => x.id == 1) = some t ∧
      0 ≤ t.progress ∧ t.progress ≤ 100 :=
  submit_progress_bounded_amended dbOpenNoSubs 1 "Pizza" "alice" sessionOpen1
    alice rfl rfl (by decide)

/-! ### Claims about `check_submission` -/

/-- Claim C10: check-submission does not validate session existence.  For a
session id resolving to no session and a username resolving to an existing
participant, in any store whose recorded submissions all reference existing
sessions, the operation succeeds with submitted=false instead of failing
with NotFound. -/
theorem check_submission_missing_session_ok_false (db : DB) (sid : Nat)
    (uname : String) (user : UserRow)
    (husr : db.users.find? (fun u => u.name == uname) = some user)
    (hses : db.sessions.find? (fun s => s.id == sid) = none)
    (hwf : ∀ u ∈ db.user_session_restaurants,
      ∃ s ∈ db.sessions, s.id = u.session_id) :
    check_submission db sid uname =
      Except.ok { submitted := false, restaurantName := none } := by
  have hn : db.user_session_restaurants.find?
      (fun u => u.session_id == sid && u.user_id == user.id) = none := by
    rw [List.find?_eq_none]
    intro u hu hcontr
    simp only [Bool.and_eq_true, beq_iff_eq] at hcontr
    obtain ⟨s, hsmem, hsid⟩ := hwf u hu
    have hbad := List.find?_eq_none.mp hses s hsmem
    simp only [beq_iff_eq] at hbad
    exact hbad (by rw [hsid, hcontr.1])
  unfold check_submission
  rw [husr]
  dsimp only
  rw [hn]

/-- Witness for claim C10: the store holds user "alice" and no session, and
check-submission on the nonexistent session 7 succeeds. -/
theorem check_submission_missing_session_ok_false_witness :
    check_submission dbUserOnly 7 "alice" =
      Except.ok { submitted := false, restaurantName := none } :=
  check_submission_missing_session_ok_false dbUserOnly 7 "alice" alice
    rfl rfl (by decide)

/-- Catalog well-formedness: restaurant ids are pairwise distinct and all
below the auto-increment counter.  Both hold in every store reachable
through the handlers, which only insert with the fresh counter value. -/
def restaurantIdsOk (db : DB) : Prop :=
  (db.restaurants.map (fun r => r.id)).Nodup ∧
  ∀ r ∈ db.restaurants, r.id < db.next_restaurant_id

/-- Looking a member row up by its id returns that row when ids are
pairwise distinct. -/
theorem find?_restaurant_by_id (l : List RestaurantRow) (r : RestaurantRow)
    (hnd : (l.map (fun x => x.id)).Nodup) (hm : r ∈ l) :
    l.find? (fun x => x.id == r.id) = some r := by
  induction l with
  | nil => cases hm
  | cons x xs ih =>
    rw [List.map_cons, List.nodup_cons] at hnd
    rcases List.mem_cons.mp hm with h | h
    · subst h
      exact List.find?_cons_of_pos _ (by simp)
    · have hx : ¬ (x.id == r.id) = true := by
        simp only [beq_iff_eq]
        intro he
        apply hnd.1
        rw [he]
        exact List.mem_map.mpr ⟨r, h, rfl⟩
      rw [show List.find? (fun y => y.id == r.id) (x :: xs) =
          List.find? (fun y => y.id == r.id) xs from
        List.find?_cons_of_neg _ hx]
      exact ih hnd.2 h

/-- Claim C8: for an existing participant, check-submission answers
submitted=false before any submission by that participant in the session,
and after that participant submits (their only submission in the session)
it answers submitted=true with the restaurant name they submitted. -/
theorem check_submission_before_after (db : DB) (sid : Nat)
    (uname rname : String) (user : UserRow) (s : SessionRow)
    (husr : db.users.find? (fun u => u.name == uname) = some user)
    (hses : db.sessions.find? (fun t => t.id == sid) = some s)
    (hwf : restaurantIdsOk db)
    (hnone : ∀ u ∈ db.user_session_restaurants,
      ¬ (u.session_id = sid ∧ u.user_id = user.id)) :
    check_submission db sid uname =
      Except.ok { submitted := false, restaurantName := none } ∧
    check_submission (submit_restaurant db sid rname uname).2 sid uname =
      Except.ok { submitted := true, restaurantName := some rname } := by
  have hn : db.user_session_restaurants.find?
      (fun u => u.session_id == sid && u.user_id == user.id) = none := by
    rw [List.find?_eq_none]
    intro u hu hcontr
    simp only [Bool.and_eq_true, beq_iff_eq] at hcontr
    exact hnone u hu hcontr
  constructor
  · unfold check_submission
    rw [husr]
    dsimp only
    rw [hn]
  · cases hrest : db.restaurants.find? (fun r => r.name == rname) with
    | some restaurant =>
      have hrname : restaurant.name = rname := by
        simpa using List.find?_some hrest
      have hrmem : restaurant ∈ db.restaurants :=
        List.mem_of_find?_eq_some hrest
      rw [submit_restaurant_eq_of_catalog_hit db sid rname uname s user
        restaurant hses husr hrest]
      unfold check_submission
      dsimp only
      rw [husr]
      dsimp only
      rw [List.find?_append, hn, Option.none_or,
        List.find?_cons_of_pos _ (by simp)]
      dsimp only
      rw [find?_restaurant_by_id db.restaurants restaurant hwf.1 hrmem]
      dsimp only
      rw [hrname]
    | none =>
      have hfr1 : db.restaurants.find?
          (fun r => r.id == db.next_restaurant_id) = none := by
        rw [List.find?_eq_none]
        intro r hr hcontr
        simp only [beq_iff_eq] at hcontr
        exact absurd hcontr (Nat.ne_of_lt (hwf.2 r hr))
      rw [submit_restaurant_eq_of_catalog_miss db sid rname uname s user
        hses husr hrest]
      unfold check_submission
      dsimp only
      rw [husr]
      dsimp only
      rw [List.find?_append, hn, Option.none_or,
        List.find?_cons_of_pos _ (by simp)]
      dsimp only
      rw [List.find?_append, hfr1, Option.none_or,
        List.find?_cons_of_pos _ (by simp)]

/-- Witness for claim C8: the round trip at the concrete one-user store. -/
theorem check_submission_before_after_witness :
    check_submission dbOpenNoSubs 1 "alice" =
      Except.ok { submitted := false, restaurantName := none } ∧
    check_submission (submit_restaurant dbOpenNoSubs 1 "Pizza" "alice").2
        1 "alice" =
      Except.ok { submitted := true, restaurantName := some "Pizza" } :=
  check_submission_before_after dbOpenNoSubs 1 "alice" "Pizza" alice
    sessionOpen1 rfl rfl ⟨by decide, by decide⟩ (by decide)
